import Mathlib

/-!
Shallow embedding of `poolheatmetrics.py`: a periodic metrics exporter that
polls the AquaTemp cloud API (login, device resolution, telemetry) and a local
Hue bridge (zeroconf discovery, registration, pump lookup, pump state), caching
credentials in a local `dbm` key-value store.

The network is modelled as an oracle (`Env`) answering each endpoint by the
index of the call (how many calls to that endpoint happened before), and where
the source sends request-specific data (token, user id, device code) the oracle
receives it.  Each operation returns its result (`Except Err`), the updated
store, and the ghost log of network calls it made, appended to the log it was
given.  Exceptions raised by the Python code become `Except.error`: the code
raises `SystemError` with a message, `SystemExit` in `find_hue`, and can hit
plain Python runtime errors (`json.loads` on malformed bytes, `IndexError` on
an empty list), which are distinct classes and are NOT caught by the
`except SystemError` clause in `refresh_all_meters`.
-/

deriving instance DecidableEq for Except

namespace PoolHeat

/-- `PUMPNAME = "Poolpump"` from the source. -/
def PUMPNAME : String := "Poolpump"

/-- `MAX_WAIT = 150` from the source. -/
def MAX_WAIT : Nat := 150

/-- A value stored in the dbm store.  `credPair` is the byte string
`json.dumps((token, id))`; `str` is a plain ascii payload (device code,
hue id). -/
inductive DbVal where
  | str (s : String)
  | credPair (token userId : String)
deriving DecidableEq, Repr

/-- The text the stored bytes decode to (`db[key].decode("ascii")`). -/
def DbVal.bytesText : DbVal → String
  | .str s => s
  | .credPair t u => "[\x22" ++ t ++ "\x22, \x22" ++ u ++ "\x22]"

/-- The dbm store: an association list, most recent write first. -/
def Db := List (String × DbVal)

instance : DecidableEq Db := by unfold Db; infer_instance

/-- `key in db` / `db[key]` combined: first binding for the key. -/
def dbLookup : Db → String → Option DbVal
  | [], _ => none
  | (k, v) :: rest, key => if k = key then some v else dbLookup rest key

/-- `db[key] = value`: the new binding shadows any previous one. -/
def dbSet (db : Db) (key : String) (v : DbVal) : Db := (key, v) :: db

/-- Exceptions of the source.  `systemError` is `raise SystemError(msg)`
(the only class caught in `refresh_all_meters`), `systemExit` is
`raise SystemExit(msg)` in `find_hue`, `pyError` is an uncaught Python
runtime error (`json.JSONDecodeError`, `IndexError`). -/
inductive Err where
  | systemError (msg : String)
  | systemExit (msg : String)
  | pyError (msg : String)
deriving DecidableEq, Repr

/-- Whether `except SystemError` catches this exception. -/
def Err.isSystemError : Err → Bool
  | .systemError _ => true
  | _ => false

/-- Ghost record of one outbound network call.  The `force` flag on
`cloudLogin` records which `aquatemp_login` path issued it. -/
inductive NetCall where
  | cloudLogin (force : Bool)
  | cloudDeviceList
  | cloudGetData
deriving DecidableEq, Repr

def NetCall.isLogin : NetCall → Bool
  | .cloudLogin _ => true
  | _ => false

def NetCall.isForcedLogin : NetCall → Bool
  | .cloudLogin true => true
  | _ => false

def NetCall.isDeviceList : NetCall → Bool
  | .cloudDeviceList => true
  | _ => false

def NetCall.isGetData : NetCall → Bool
  | .cloudGetData => true
  | _ => false

/-- Parsed response of the cloud login endpoint. -/
structure LoginResponse where
  ok : Bool
  error_code : Int
  token : String
  userId : String
deriving DecidableEq, Repr

/-- Parsed response of the "my shared devices" endpoint: `objectResult`
is the list of `deviceCode` values. -/
structure DeviceResponse where
  ok : Bool
  error_code : Int
  objectResult : List String
deriving DecidableEq, Repr

/-- One element of the telemetry response `objectResult`: a protocol code
and the float its `value` string parses to. -/
structure Entry where
  code : String
  value : ℚ
deriving DecidableEq, Repr

/-- Parsed response of the "get data by code" endpoint. -/
structure DataResponse where
  ok : Bool
  error_code : Int
  objectResult : List Entry
deriving DecidableEq, Repr

/-- A Python runtime value held in an `ATData` field.  The TypedDict
declares `on : bool`, but the dict at runtime stores whatever
`d[key] = value` put there, so a field can hold a float or a bool. -/
inductive PyVal where
  | float (q : ℚ)
  | bool (b : Bool)
deriving DecidableEq, Repr

/-- The telemetry snapshot dict `ATData`. -/
structure ATData where
  incoming : PyVal
  outgoing : PyVal
  target : PyVal
  «on» : PyVal
deriving DecidableEq, Repr

/-- `d = ATData(target=-1, incoming=-1, outgoing=-1, on=False)`. -/
def ATData.init : ATData :=
  { incoming := .float (-1), outgoing := .float (-1), target := .float (-1), «on» := .bool false }

/-- One iteration of the parsing loop in `aquatemp_get_data`:
`value = float(p["value"]); key = "on"; match p["code"]: ...; d[key] = value`.
Note that an unmatched code leaves `key` at its initial value `"on"` and
`value` at the float, so the `on` field receives the float. -/
def aquatemp_entry_step (d : ATData) (p : Entry) : ATData :=
  let value : PyVal := .float p.value
  match p.code with
  | "R02" => { d with target := value }
  | "T02" => { d with incoming := value }
  | "T03" => { d with outgoing := value }
  | "Power" => { d with «on» := .bool (decide (p.value ≠ 0)) }
  | _ => { d with «on» := value }

/-- The network oracle: what each endpoint answers.  Cloud endpoints are
indexed by the number of previous calls to that endpoint; where the request
carries data the source computed (the token and the `toUser` id for the
device list, the token and device code for telemetry), the oracle receives
it.  `urlAt t` is the zeroconf listener's `_url` field `t` seconds into
`find_hue`'s wait loop.  `hueStatus`/`lights` answer the bridge full-state
GET used by `find_pump`; `lightStatus`/`lightOn` answer the single-light
GET used by `is_running`. -/
structure Env where
  loginResp : Nat → LoginResponse
  deviceResp : Nat → String → String → DeviceResponse
  dataResp : Nat → String → String → DataResponse
  urlAt : Nat → Option String
  hueStatus : Nat
  lights : List (String × String)
  lightStatus : Nat
  lightOn : Bool

/-- `aquatemp_login(db, at, force)`.  The md5-hashed credential payload is
config data that only reaches the oracle, so it is elided.  Returns the
`(token, id)` pair, the store, and the extended call log. -/
def aquatemp_login (env : Env) (db : Db) (log : List NetCall) (force : Bool) :
    Except Err (String × String) × Db × List NetCall :=
  let key := "aquatemptokenandid"
  if force = false ∧ (dbLookup db key).isSome then
    match dbLookup db key with
    | some (.credPair token id) => (.ok (token, id), db, log)
    | some (.str _) => (.error (.pyError "json.loads"), db, log)
    | none => (.error (.pyError "unreachable"), db, log)
  else
    let r := env.loginResp (log.countP NetCall.isLogin)
    let log := log ++ [.cloudLogin force]
    if r.ok = false ∨ r.error_code ≠ 0 then
      (.error (.systemError "bad return from aquatemp login"), db, log)
    else
      let token := r.token
      let id := r.userId
      (.ok (token, id), dbSet db key (.credPair token id), log)

/-- `aquatemp_get_device(db, token, id)`.  Cache-first on key
`"aquatempdevice"`; on miss, calls the device-list endpoint and takes
`objectResult[0]["deviceCode"]` (an empty list raises `IndexError`). -/
def aquatemp_get_device (env : Env) (db : Db) (log : List NetCall) (token id : String) :
    Except Err String × Db × List NetCall :=
  let key := "aquatempdevice"
  match dbLookup db key with
  | some v => (.ok v.bytesText, db, log)
  | none =>
    let r := env.deviceResp (log.countP NetCall.isDeviceList) token id
    let log := log ++ [.cloudDeviceList]
    if r.ok = false ∨ r.error_code ≠ 0 then
      (.error (.systemError "bad return from aquatemp device check"), db, log)
    else
      match r.objectResult with
      | [] => (.error (.pyError "IndexError"), db, log)
      | device :: _ => (.ok device, dbSet db key (.str device), log)

/-- `aquatemp_get_data(db, token, id)`: resolve the device, call the
"get data by code" endpoint, fold the parsing loop over `objectResult`. -/
def aquatemp_get_data (env : Env) (db : Db) (log : List NetCall) (token id : String) :
    Except Err ATData × Db × List NetCall :=
  match aquatemp_get_device env db log token id with
  | (.error e, db, log) => (.error e, db, log)
  | (.ok device, db, log) =>
    let r := env.dataResp (log.countP NetCall.isGetData) token device
    let log := log ++ [.cloudGetData]
    if r.ok = false ∨ r.error_code ≠ 0 then
      (.error (.systemError "bad return from aquatemp temperature fetch"), db, log)
    else
      (.ok (r.objectResult.foldl aquatemp_entry_step ATData.init), db, log)

/-- Linear scan of `hue["lights"]` in `Meter.find_pump`: first key whose
`name` equals `PUMPNAME`. -/
def findPumpIn : List (String × String) → Option String
  | [] => none
  | (id, name) :: rest => if name = PUMPNAME then some id else findPumpIn rest

/-- `Meter.find_pump`: GET the bridge full state; non-200 raises; otherwise
scan for the pump by name, raising when absent. -/
def find_pump (env : Env) : Except Err String :=
  if env.hueStatus ≠ 200 then
    .error (.systemError "Getting Hue status failed")
  else
    match findPumpIn env.lights with
    | some p => .ok p
    | none => .error (.systemError (PUMPNAME ++ " not found in list of controlled units"))

/-- `Meter.is_running`: GET the pump light state; non-200 raises. -/
def is_running (env : Env) : Except Err Bool :=
  if env.lightStatus ≠ 200 then
    .error (.systemError "Getting Hue pumpstatus failed")
  else
    .ok env.lightOn

/-- The `try` block of `refresh_all_meters`: `aquatemp_login(db, at)` then
`aquatemp_get_data(db, token, id)`. -/
def refresh_attempt (env : Env) (db : Db) (log : List NetCall) :
    Except Err ATData × Db × List NetCall :=
  match aquatemp_login env db log false with
  | (.error e, db, log) => (.error e, db, log)
  | (.ok (token, id), db, log) => aquatemp_get_data env db log token id

/-- The `except SystemError` block: `aquatemp_login(db, at, force=True)`
then `aquatemp_get_data(db, token, id)`; anything raised here propagates. -/
def refresh_retry (env : Env) (db : Db) (log : List NetCall) :
    Except Err ATData × Db × List NetCall :=
  match aquatemp_login env db log true with
  | (.error e, db, log) => (.error e, db, log)
  | (.ok (token, id), db, log) => aquatemp_get_data env db log token id

/-- The credential/telemetry part of one `refresh_all_meters` cycle:
the `try` block, with `except SystemError` routing to the retry block.
Exceptions that are not `SystemError` are not caught. -/
def refresh_telemetry (env : Env) (db : Db) (log : List NetCall) :
    Except Err ATData × Db × List NetCall :=
  match refresh_attempt env db log with
  | (.error e, db, log) =>
    if e.isSystemError then refresh_retry env db log
    else (.error e, db, log)
  | (.ok t, db, log) => (.ok t, db, log)

/-- A full `refresh_all_meters` cycle: telemetry (with the single retry),
then the gauge writes (pure), then `is_running` for the pump gauge. -/
def refresh_all_meters (env : Env) (db : Db) (log : List NetCall) :
    Except Err (ATData × Bool) × Db × List NetCall :=
  match refresh_telemetry env db log with
  | (.error e, db, log) => (.error e, db, log)
  | (.ok t, db, log) =>
    match is_running env with
    | .error e => (.error e, db, log)
    | .ok b => (.ok (t, b), db, log)

/-- State of `find_hue`'s wait loop: the `count` variable and the elapsed
seconds (one per `time.sleep(1)`). -/
structure HueState where
  count : Nat
  t : Nat
deriving DecidableEq, Repr

/-- One check of `while count < MAX_WAIT and not listener.url:` — if the
guard holds, the body runs (`time.sleep(1)` only; `count` is never
incremented), else the state is final. -/
def find_hue_step (env : Env) (s : HueState) : HueState :=
  if s.count < MAX_WAIT ∧ env.urlAt s.t = none then
    { count := s.count, t := s.t + 1 }
  else s

/-- The loop state after `n` guard checks, from `count = 0` at time 0. -/
def find_hue_iter (env : Env) : Nat → HueState
  | 0 => { count := 0, t := 0 }
  | n + 1 => find_hue_step env (find_hue_iter env n)

/-- Whether the loop guard still holds after `n` checks, i.e. the loop has
not yet exited. -/
def find_hue_looping (env : Env) (n : Nat) : Bool :=
  decide ((find_hue_iter env n).count < MAX_WAIT) &&
    (env.urlAt (find_hue_iter env n).t).isNone

/-- An operation on the credential store, as invoked by the poll loop. -/
inductive Op where
  | login (force : Bool)
  | getDevice (token id : String)
  | getData (token id : String)

/-- Run one operation for its effect on the store and the call log. -/
def runOp (env : Env) (s : Db × List NetCall) : Op → Db × List NetCall
  | .login f => (aquatemp_login env s.1 s.2 f).2
  | .getDevice t u => (aquatemp_get_device env s.1 s.2 t u).2
  | .getData t u => (aquatemp_get_data env s.1 s.2 t u).2

/-- Run a sequence of operations from a starting store and log. -/
def runOps (env : Env) (ops : List Op) (s : Db × List NetCall) : Db × List NetCall :=
  ops.foldl (runOp env) s

/-- The credential-record invariant: whatever the store holds under the
credential key is a complete `(token, userId)` record. -/
def credAtomic (db : Db) : Prop :=
  ∀ v, dbLookup db "aquatemptokenandid" = some v → ∃ t u, v = DbVal.credPair t u

/-! ### Concrete environments used by witnesses and counterexamples -/

/-- A benign oracle: every endpoint succeeds with fixed data. -/
def baseEnv : Env where
  loginResp := fun _ => { ok := true, error_code := 0, token := "T1", userId := "U1" }
  deviceResp := fun _ _ _ => { ok := true, error_code := 0, objectResult := ["DEV1"] }
  dataResp := fun _ _ _ => { ok := true, error_code := 0, objectResult := [] }
  urlAt := fun _ => none
  hueStatus := 200
  lights := [("a", "Other"), ("b", "Poolpump")]
  lightStatus := 200
  lightOn := true

/-- A store that already caches the device code. -/
def dbDev : Db := [("aquatempdevice", DbVal.str "DEV1")]

/-- Oracle answering the telemetry endpoint with all four codes. -/
def envC6a : Env :=
  { baseEnv with dataResp := fun _ _ _ =>
      { ok := true, error_code := 0,
        objectResult := [⟨"R02", 21⟩, ⟨"T02", 18.5⟩, ⟨"T03", 19⟩, ⟨"Power", 1⟩] } }

/-- Oracle answering the telemetry endpoint with only `T02`. -/
def envC6b : Env :=
  { baseEnv with dataResp := fun _ _ _ =>
      { ok := true, error_code := 0, objectResult := [⟨"T02", 18.5⟩] } }

/-- Oracle answering the telemetry endpoint with one unrecognized code. -/
def envC2x : Env :=
  { baseEnv with dataResp := fun _ _ _ =>
      { ok := true, error_code := 0, objectResult := [⟨"X99", 5⟩] } }

/-- Oracle for the recovery scenario: the first telemetry call fails with
`error_code = 1`, later ones succeed. -/
def envC3 : Env :=
  { baseEnv with dataResp := fun n _ _ =>
      if n = 0 then { ok := true, error_code := 1, objectResult := [] }
      else { ok := true, error_code := 0, objectResult := [⟨"T02", 18.5⟩] } }

/-- A store that caches both the credential record and the device code. -/
def dbC3 : Db :=
  [("aquatemptokenandid", DbVal.credPair "T1" "U1"), ("aquatempdevice", DbVal.str "DEV1")]

/-- Oracle whose login endpoint answers with `error_code = 1`. -/
def envBadLogin : Env :=
  { baseEnv with loginResp := fun _ =>
      { ok := true, error_code := 1, token := "T1", userId := "U1" } }

/-! ### Helper lemmas -/

lemma dbLookup_set_self (db : Db) (k : String) (v : DbVal) :
    dbLookup (dbSet db k v) k = some v := by
  simp [dbSet, dbLookup]

lemma dbLookup_set_ne (db : Db) (k k' : String) (v : DbVal) (h : k ≠ k') :
    dbLookup (dbSet db k v) k' = dbLookup db k' := by
  simp [dbSet, dbLookup, h]

lemma login_db_cases (env : Env) (db : Db) (log : List NetCall) (f : Bool) :
    (aquatemp_login env db log f).2.1 = db ∨
    ∃ t u, (aquatemp_login env db log f).2.1 =
      dbSet db "aquatemptokenandid" (DbVal.credPair t u) := by
  unfold aquatemp_login
  dsimp only
  split
  · split <;> simp
  · split
    · simp
    · right; exact ⟨_, _, rfl⟩

lemma login_log_cases (env : Env) (db : Db) (log : List NetCall) (f : Bool) :
    (aquatemp_login env db log f).2.2 = log ∨
    (aquatemp_login env db log f).2.2 = log ++ [NetCall.cloudLogin f] := by
  unfold aquatemp_login
  dsimp only
  split
  · split <;> simp
  · split <;> simp

lemma login_forced_network (env : Env) (db : Db) (log : List NetCall) :
    (aquatemp_login env db log true).2.2 = log ++ [NetCall.cloudLogin true] := by
  unfold aquatemp_login
  dsimp only
  rw [if_neg (by simp)]
  split <;> rfl

lemma get_device_db_cases (env : Env) (db : Db) (log : List NetCall) (t u : String) :
    (aquatemp_get_device env db log t u).2.1 = db ∨
    ∃ d, (aquatemp_get_device env db log t u).2.1 =
      dbSet db "aquatempdevice" (DbVal.str d) := by
  unfold aquatemp_get_device
  dsimp only
  split
  · simp
  · split
    · simp
    · split
      · simp
      · right; exact ⟨_, rfl⟩

lemma get_device_log_cases (env : Env) (db : Db) (log : List NetCall) (t u : String) :
    (aquatemp_get_device env db log t u).2.2 = log ∨
    (aquatemp_get_device env db log t u).2.2 = log ++ [NetCall.cloudDeviceList] := by
  unfold aquatemp_get_device
  dsimp only
  split
  · simp
  · split
    · simp
    · split <;> simp

lemma get_data_db_cases (env : Env) (db : Db) (log : List NetCall) (t u : String) :
    (aquatemp_get_data env db log t u).2.1 = db ∨
    ∃ d, (aquatemp_get_data env db log t u).2.1 =
      dbSet db "aquatempdevice" (DbVal.str d) := by
  unfold aquatemp_get_data
  have h := get_device_db_cases env db log t u
  rcases hh : aquatemp_get_device env db log t u with ⟨res, db1, log1⟩
  rw [hh] at h
  cases res with
  | error e => exact h
  | ok d => dsimp only; split <;> exact h

lemma get_data_log_cases (env : Env) (db : Db) (log : List NetCall) (t u : String) :
    (aquatemp_get_data env db log t u).2.2 = log ∨
    (aquatemp_get_data env db log t u).2.2 = log ++ [NetCall.cloudDeviceList] ∨
    (aquatemp_get_data env db log t u).2.2 = log ++ [NetCall.cloudGetData] ∨
    (aquatemp_get_data env db log t u).2.2 =
      log ++ [NetCall.cloudDeviceList, NetCall.cloudGetData] := by
  unfold aquatemp_get_data
  have h := get_device_log_cases env db log t u
  rcases hh : aquatemp_get_device env db log t u with ⟨res, db1, log1⟩
  rw [hh] at h
  cases res with
  | error e => dsimp only at h ⊢; tauto
  | ok d =>
    dsimp only at h ⊢
    rcases h with h | h <;> rw [h] <;> split <;> simp

lemma get_data_count_facts (env : Env) (db : Db) (log : List NetCall) (t u : String) :
    (aquatemp_get_data env db log t u).2.2.countP NetCall.isForcedLogin =
      log.countP NetCall.isForcedLogin ∧
    (aquatemp_get_data env db log t u).2.2.countP NetCall.isGetData ≤
      log.countP NetCall.isGetData + 1 := by
  rcases get_data_log_cases env db log t u with h | h | h | h <;> rw [h] <;>
    simp [List.countP_append, List.countP_cons, NetCall.isForcedLogin, NetCall.isGetData]

lemma login_count_facts (env : Env) (db : Db) (log : List NetCall) (f : Bool) :
    (aquatemp_login env db log f).2.2.countP NetCall.isForcedLogin ≤
      log.countP NetCall.isForcedLogin + (if f then 1 else 0) ∧
    (aquatemp_login env db log f).2.2.countP NetCall.isGetData =
      log.countP NetCall.isGetData := by
  rcases login_log_cases env db log f with h | h <;> rw [h] <;> cases f <;>
    simp [List.countP_append, List.countP_cons, NetCall.isForcedLogin, NetCall.isGetData]

lemma findPumpIn_eq_none (l : List (String × String)) (h : ∀ p ∈ l, p.2 ≠ PUMPNAME) :
    findPumpIn l = none := by
  induction l with
  | nil => rfl
  | cons hd tl ih =>
    have h1 : hd.2 ≠ PUMPNAME := h hd (by simp)
    rcases hd with ⟨id, name⟩
    simp only [findPumpIn, if_neg h1]
    exact ih fun p hp => h p (List.mem_cons_of_mem _ hp)

lemma findPumpIn_eq_some (l : List (String × String)) (d : String)
    (h : findPumpIn l = some d) : ∃ p ∈ l, p.1 = d ∧ p.2 = PUMPNAME := by
  induction l with
  | nil => simp [findPumpIn] at h
  | cons hd tl ih =>
    rcases hd with ⟨id, name⟩
    by_cases hn : name = PUMPNAME
    · simp only [findPumpIn, if_pos hn] at h
      exact ⟨(id, name), by simp, by simpa using h, hn⟩
    · simp only [findPumpIn, if_neg hn] at h
      rcases ih h with ⟨p, hp, hd, hname⟩
      exact ⟨p, List.mem_cons_of_mem _ hp, hd, hname⟩

/-! ### Claim theorems -/

/-- C1: the claim says `find_hue` polls once per second up to `MAX_WAIT = 150`
seconds and fails when no bridge appears within that bound.  The code is
wrong: `count` is never incremented in the wait loop, so with no bridge ever
announced the guard `count < MAX_WAIT and not listener.url` holds forever —
after any number `n` of one-second sleeps the loop is still running with
`count = 0`, so the elapsed time passes every bound and `SystemExit`
(the `DiscoveryTimeout` of the spec) is never raised. -/
theorem find_hue_no_announce_never_exits (env : Env) (h : ∀ t, env.urlAt t = none) (n : Nat) :
    find_hue_iter env n = { count := 0, t := n } ∧ find_hue_looping env n = true := by
  have hiter : ∀ m, find_hue_iter env m = { count := 0, t := m } := by
    intro m
    induction m with
    | zero => rfl
    | succ m ih => simp [find_hue_iter, find_hue_step, ih, h, MAX_WAIT]
  exact ⟨hiter n, by simp [find_hue_looping, hiter n, h, MAX_WAIT]⟩

/-- C1 witness: with an oracle that never announces a bridge, after
`MAX_WAIT + 1` sleeps the loop is still running. -/
theorem find_hue_no_announce_never_exits_witness :
    find_hue_iter baseEnv (MAX_WAIT + 1) = { count := 0, t := MAX_WAIT + 1 } ∧
    find_hue_looping baseEnv (MAX_WAIT + 1) = true :=
  find_hue_no_announce_never_exits baseEnv (fun _ => rfl) (MAX_WAIT + 1)

/-- C2: the claim says an entry with an unrecognized code leaves every
snapshot field unchanged.  The code is wrong: the parsing loop initializes
`key = "on"` and the `match` has no default case, so an unrecognized code
stores its float value in the `on` field — contradicting the `ATData`
TypedDict declaration `on: bool`.  Concretely, a response holding only
`{code:"X99", value:5}` yields `on = 5.0` where the response without that
entry yields `on = False`. -/
theorem get_data_unknown_code_clobbers_on :
    (aquatemp_get_data envC2x dbDev [] "t" "u").1 =
      Except.ok { incoming := .float (-1), outgoing := .float (-1), target := .float (-1),
                  «on» := .float 5 } ∧
    (aquatemp_get_data baseEnv dbDev [] "t" "u").1 = Except.ok ATData.init ∧
    PyVal.float 5 ≠ ATData.init.«on» :=
  ⟨rfl, rfl, by simp [ATData.init]⟩

/-- C4: a login that reaches the network (forced, or no cached record) and
gets a non-OK HTTP response or a nonzero `error_code` raises
`SystemError` (the spec's `AuthError`) and leaves the store untouched:
no token/userId record is written. -/
theorem login_failure_leaves_store (env : Env) (db : Db) (log : List NetCall) (force : Bool)
    (hnet : force = true ∨ dbLookup db "aquatemptokenandid" = none)
    (hbad : (env.loginResp (log.countP NetCall.isLogin)).ok = false ∨
      (env.loginResp (log.countP NetCall.isLogin)).error_code ≠ 0) :
    aquatemp_login env db log force =
      (Except.error (Err.systemError "bad return from aquatemp login"), db,
        log ++ [NetCall.cloudLogin force]) := by
  have hcond : ¬(force = false ∧ (dbLookup db "aquatemptokenandid").isSome) := by
    rcases hnet with h | h <;> simp [h]
  unfold aquatemp_login
  dsimp only
  rw [if_neg hcond, if_pos hbad]

/-- C4 witness: against an oracle answering `error_code = 1`, a login on an
empty store fails and writes nothing. -/
theorem login_failure_leaves_store_witness :
    aquatemp_login envBadLogin ([] : Db) [] false =
      (Except.error (Err.systemError "bad return from aquatemp login"), ([] : Db),
        [NetCall.cloudLogin false]) :=
  login_failure_leaves_store envBadLogin ([] : Db) [] false (Or.inr rfl) (Or.inr (by decide))

/-- C5: with a cached `(token, userId)` record, `login(force=false)` returns
the cached pair, makes no network call and leaves the store unchanged;
`login(force=true)` always issues the network call, on success overwrites
the cached record, and a subsequent `login(force=false)` returns the newly
written pair with no network call. -/
theorem login_cache_hit_and_forced_overwrite (env : Env) (db : Db) (log : List NetCall) :
    (∀ t u, dbLookup db "aquatemptokenandid" = some (DbVal.credPair t u) →
      aquatemp_login env db log false = (Except.ok (t, u), db, log)) ∧
    (∀ tok uid, env.loginResp (log.countP NetCall.isLogin) =
        { ok := true, error_code := 0, token := tok, userId := uid } →
      aquatemp_login env db log true =
        (Except.ok (tok, uid), dbSet db "aquatemptokenandid" (DbVal.credPair tok uid),
          log ++ [NetCall.cloudLogin true]) ∧
      ∀ log2, aquatemp_login env
          (dbSet db "aquatemptokenandid" (DbVal.credPair tok uid)) log2 false =
        (Except.ok (tok, uid), dbSet db "aquatemptokenandid" (DbVal.credPair tok uid), log2)) := by
  constructor
  · intro t u h
    simp [aquatemp_login, h]
  · intro tok uid h
    constructor
    · simp [aquatemp_login, h]
    · intro log2
      simp [aquatemp_login, dbSet, dbLookup]

/-- C5 witness: a forced login against the benign oracle writes the record,
and the next unforced login returns it from the cache. -/
theorem login_cache_hit_and_forced_overwrite_witness :
    aquatemp_login baseEnv ([] : Db) [] true =
      (Except.ok ("T1", "U1"), dbSet ([] : Db) "aquatemptokenandid" (DbVal.credPair "T1" "U1"),
        [NetCall.cloudLogin true]) ∧
    aquatemp_login baseEnv (dbSet ([] : Db) "aquatemptokenandid" (DbVal.credPair "T1" "U1"))
        [NetCall.cloudLogin true] false =
      (Except.ok ("T1", "U1"), dbSet ([] : Db) "aquatemptokenandid" (DbVal.credPair "T1" "U1"),
        [NetCall.cloudLogin true]) := by
  have h := (login_cache_hit_and_forced_overwrite baseEnv ([] : Db) []).2 "T1" "U1" rfl
  exact ⟨h.1, h.2 [NetCall.cloudLogin true]⟩

/-- C6: the parsing loop maps `R02` to `target`, `T02` to `incoming`,
`T03` to `outgoing`, and `Power` to `on` as the truthiness of its float
value; on the four-code response the snapshot is
`{target:21, incoming:18.5, outgoing:19, on:true}`, and on a `T02`-only
response the remaining fields keep their sentinel defaults `-1` / `False`. -/
theorem get_data_code_field_mapping :
    (∀ (d : ATData) (v : ℚ), aquatemp_entry_step d ⟨"R02", v⟩ = { d with target := .float v }) ∧
    (∀ (d : ATData) (v : ℚ), aquatemp_entry_step d ⟨"T02", v⟩ = { d with incoming := .float v }) ∧
    (∀ (d : ATData) (v : ℚ), aquatemp_entry_step d ⟨"T03", v⟩ = { d with outgoing := .float v }) ∧
    (∀ (d : ATData) (v : ℚ), aquatemp_entry_step d ⟨"Power", v⟩ =
      { d with «on» := .bool (decide (v ≠ 0)) }) ∧
    (aquatemp_get_data envC6a dbDev [] "t" "u").1 =
      Except.ok { incoming := .float 18.5, outgoing := .float 19, target := .float 21,
                  «on» := .bool true } ∧
    (aquatemp_get_data envC6b dbDev [] "t" "u").1 =
      Except.ok { incoming := .float 18.5, outgoing := .float (-1), target := .float (-1),
                  «on» := .bool false } :=
  ⟨fun _ _ => rfl, fun _ _ => rfl, fun _ _ => rfl, fun _ _ => rfl, rfl, rfl⟩

/-- C8: any `aquatemp_login` call — forced or not, successful or not —
leaves the cached device-identifier key `"aquatempdevice"` exactly as it
was: only the credential key is ever written. -/
theorem login_preserves_device_key (env : Env) (db : Db) (log : List NetCall) (force : Bool) :
    dbLookup (aquatemp_login env db log force).2.1 "aquatempdevice" =
      dbLookup db "aquatempdevice" := by
  rcases login_db_cases env db log force with h | ⟨t, u, h⟩
  · rw [h]
  · rw [h, dbLookup_set_ne _ _ _ _ (by decide)]

/-- C9: `find_pump` returns the identifier of the first device whose name
is `PUMPNAME`: on `[{id:"a", name:"Other"}, {id:"b", name:"Poolpump"}]` it
returns `"b"`; when no device has the pump name it raises the
`DeviceNotFound` error; and whenever it returns an id, some listed device
has that id and the pump name. -/
theorem find_pump_name_lookup :
    find_pump baseEnv = Except.ok "b" ∧
    (∀ env : Env, env.hueStatus = 200 → (∀ p ∈ env.lights, p.2 ≠ PUMPNAME) →
      find_pump env =
        Except.error (Err.systemError (PUMPNAME ++ " not found in list of controlled units"))) ∧
    (∀ (env : Env) (d : String), find_pump env = Except.ok d →
      ∃ p ∈ env.lights, p.1 = d ∧ p.2 = PUMPNAME) := by
  refine ⟨rfl, ?_, ?_⟩
  · intro env h200 hn
    simp [find_pump, h200, findPumpIn_eq_none env.lights hn]
  · intro env d h
    by_cases hs : env.hueStatus ≠ 200
    · simp [find_pump, hs] at h
    · simp only [find_pump, if_neg hs] at h
      rcases hm : findPumpIn env.lights with _ | p
      · rw [hm] at h; simp at h
      · rw [hm] at h
        simp only [Except.ok.injEq] at h
        subst h
        exact findPumpIn_eq_some env.lights _ hm

/-- C9 witness: a device list without the pump name makes `find_pump`
raise the not-found error. -/
theorem find_pump_name_lookup_witness :
    find_pump { baseEnv with lights := [("a", "Other")] } =
      Except.error (Err.systemError (PUMPNAME ++ " not found in list of controlled units")) :=
  find_pump_name_lookup.2.1 { baseEnv with lights := [("a", "Other")] } rfl (by decide)

/-- C10: when the device-identifier key is cached, `aquatemp_get_device`
returns the cached value, makes no network call, leaves the store
unchanged, and its result is identical for any two credential pairs. -/
theorem get_device_cache_hit_independent (env : Env) (db : Db) (log : List NetCall)
    (t1 u1 t2 u2 : String) (v : DbVal) (h : dbLookup db "aquatempdevice" = some v) :
    aquatemp_get_device env db log t1 u1 = (Except.ok v.bytesText, db, log) ∧
    aquatemp_get_device env db log t1 u1 = aquatemp_get_device env db log t2 u2 := by
  constructor <;> simp [aquatemp_get_device, h]

/-- C10 witness: with the device cached, two calls under different
credentials agree and touch nothing. -/
theorem get_device_cache_hit_independent_witness :
    aquatemp_get_device baseEnv dbDev [] "T1" "U1" = (Except.ok "DEV1", dbDev, []) ∧
    aquatemp_get_device baseEnv dbDev [] "T1" "U1" =
      aquatemp_get_device baseEnv dbDev [] "T2" "U2" :=
  get_device_cache_hit_independent baseEnv dbDev [] "T1" "U1" "T2" "U2" (DbVal.str "DEV1") rfl

/-! ### Lemmas for the credential-record invariant and the retry policy -/

lemma credAtomic_set_cred (db : Db) (t u : String) :
    credAtomic (dbSet db "aquatemptokenandid" (DbVal.credPair t u)) := by
  intro v hv
  rw [dbLookup_set_self] at hv
  exact ⟨t, u, (Option.some_injective _ hv).symm⟩

lemma credAtomic_set_other (db : Db) (k : String) (v : DbVal)
    (hk : k ≠ "aquatemptokenandid") (h : credAtomic db) : credAtomic (dbSet db k v) := by
  intro w hw
  rw [dbLookup_set_ne _ _ _ _ hk] at hw
  exact h w hw

lemma credAtomic_runOp (env : Env) (db : Db) (log : List NetCall) (op : Op)
    (h : credAtomic db) : credAtomic (runOp env (db, log) op).1 := by
  cases op with
  | login f =>
    rcases login_db_cases env db log f with hd | ⟨t, u, hd⟩
    · simp only [runOp]; rw [hd]; exact h
    · simp only [runOp]; rw [hd]; exact credAtomic_set_cred db t u
  | getDevice t u =>
    rcases get_device_db_cases env db log t u with hd | ⟨d, hd⟩
    · simp only [runOp]; rw [hd]; exact h
    · simp only [runOp]; rw [hd]; exact credAtomic_set_other db _ _ (by decide) h
  | getData t u =>
    rcases get_data_db_cases env db log t u with hd | ⟨d, hd⟩
    · simp only [runOp]; rw [hd]; exact h
    · simp only [runOp]; rw [hd]; exact credAtomic_set_other db _ _ (by decide) h

lemma refresh_retry_forced_count (env : Env) (db : Db) (log : List NetCall) :
    (refresh_retry env db log).2.2.countP NetCall.isForcedLogin =
      log.countP NetCall.isForcedLogin + 1 := by
  unfold refresh_retry
  rcases hh : aquatemp_login env db log true with ⟨res, db1, log1⟩
  have hlog : log1 = log ++ [NetCall.cloudLogin true] := by
    have := login_forced_network env db log
    rw [hh] at this
    exact this
  cases res with
  | error e =>
    simp [hlog, List.countP_append, List.countP_cons, NetCall.isForcedLogin]
  | ok tu =>
    rcases tu with ⟨tok, uid⟩
    dsimp only
    rw [(get_data_count_facts env db1 log1 tok uid).1, hlog]
    simp [List.countP_append, List.countP_cons, NetCall.isForcedLogin]

lemma refresh_retry_getdata_count (env : Env) (db : Db) (log : List NetCall) :
    (refresh_retry env db log).2.2.countP NetCall.isGetData ≤
      log.countP NetCall.isGetData + 1 := by
  unfold refresh_retry
  rcases hh : aquatemp_login env db log true with ⟨res, db1, log1⟩
  have hlog : log1 = log ++ [NetCall.cloudLogin true] := by
    have := login_forced_network env db log
    rw [hh] at this
    exact this
  cases res with
  | error e =>
    simp [hlog, List.countP_append, List.countP_cons, NetCall.isGetData]
  | ok tu =>
    rcases tu with ⟨tok, uid⟩
    dsimp only
    refine le_trans (get_data_count_facts env db1 log1 tok uid).2 ?_
    simp [hlog, List.countP_append, List.countP_cons, NetCall.isGetData]

lemma refresh_attempt_counts (env : Env) (db : Db) :
    (refresh_attempt env db []).2.2.countP NetCall.isForcedLogin = 0 ∧
    (refresh_attempt env db []).2.2.countP NetCall.isGetData ≤ 1 := by
  unfold refresh_attempt
  rcases hh : aquatemp_login env db [] false with ⟨res, db1, log1⟩
  have hlog : log1 = [] ∨ log1 = [NetCall.cloudLogin false] := by
    have := login_log_cases env db [] false
    rw [hh] at this
    simpa using this
  have hforced : log1.countP NetCall.isForcedLogin = 0 := by
    rcases hlog with h | h <;> simp [h, NetCall.isForcedLogin]
  have hgd : log1.countP NetCall.isGetData = 0 := by
    rcases hlog with h | h <;> simp [h, NetCall.isGetData]
  cases res with
  | error e => exact ⟨hforced, by rw [hgd]; omega⟩
  | ok tu =>
    rcases tu with ⟨tok, uid⟩
    dsimp only
    refine ⟨?_, ?_⟩
    · rw [(get_data_count_facts env db1 log1 tok uid).1, hforced]
    · refine le_trans (get_data_count_facts env db1 log1 tok uid).2 ?_
      rw [hgd]

/-! ### Remaining claim theorems -/

/-- C3 counterexample: the claim says only an authentication-class failure
is locally recovered.  Against `envC3` with credentials and device already
cached, the first attempt of the cycle makes no authentication call at all
(zero login calls) and fails with the telemetry-fetch `SystemError`
(the spec's `TelemetryFetchError`), yet the cycle recovers it: the forced
re-login runs (one forced login call in the final log) and the cycle
succeeds. -/
theorem refresh_recovers_nonauth_failure :
    (refresh_attempt envC3 dbC3 []).2.2.countP NetCall.isLogin = 0 ∧
    (refresh_attempt envC3 dbC3 []).1 =
      Except.error (Err.systemError "bad return from aquatemp temperature fetch") ∧
    (refresh_telemetry envC3 dbC3 []).1 =
      Except.ok { incoming := .float 18.5, outgoing := .float (-1), target := .float (-1),
                  «on» := .bool false } ∧
    (refresh_telemetry envC3 dbC3 []).2.2.countP NetCall.isForcedLogin = 1 :=
  ⟨rfl, rfl, rfl, rfl⟩

/-- C3 amended: in every poll cycle, any `SystemError` failure of the first
login-and-fetch attempt — authentication, device-resolution, or
telemetry-fetch alike — is locally recovered by exactly one forced re-login
followed by exactly one retry of the fetch; whatever the retry path produces
(including a second failure) is the cycle's result, with no further retry:
a successful first attempt issues no forced login, a failed one routes to
`refresh_retry`, and the whole cycle never issues more than one forced
login or more than two telemetry fetches. -/
theorem refresh_single_forced_retry (env : Env) (db : Db) :
    (∀ t out, refresh_attempt env db [] = (Except.ok t, out) →
      refresh_telemetry env db [] = (Except.ok t, out) ∧
      out.2.countP NetCall.isForcedLogin = 0) ∧
    (∀ e db1 log1, refresh_attempt env db [] = (Except.error e, db1, log1) →
      Err.isSystemError e = true →
      refresh_telemetry env db [] = refresh_retry env db1 log1 ∧
      (refresh_retry env db1 log1).2.2.countP NetCall.isForcedLogin =
        log1.countP NetCall.isForcedLogin + 1) ∧
    (refresh_telemetry env db []).2.2.countP NetCall.isForcedLogin ≤ 1 ∧
    (refresh_telemetry env db []).2.2.countP NetCall.isGetData ≤ 2 := by
  refine ⟨?_, ?_, ?_⟩
  · intro t out h
    refine ⟨?_, ?_⟩
    · unfold refresh_telemetry
      rw [h]
    · have := (refresh_attempt_counts env db).1
      rw [h] at this
      exact this
  · intro e db1 log1 h hsys
    refine ⟨?_, refresh_retry_forced_count env db1 log1⟩
    unfold refresh_telemetry
    rw [h]
    dsimp only
    rw [if_pos hsys]
  · have hc := refresh_attempt_counts env db
    rcases hh : refresh_attempt env db [] with ⟨res, db1, log1⟩
    rw [hh] at hc
    obtain ⟨hc1, hc2⟩ := hc
    dsimp only at hc1 hc2
    unfold refresh_telemetry
    rw [hh]
    cases res with
    | ok t =>
      dsimp only
      exact ⟨by omega, by omega⟩
    | error e =>
      dsimp only
      by_cases hs : e.isSystemError = true
      · rw [if_pos hs]
        refine ⟨?_, ?_⟩
        · rw [refresh_retry_forced_count env db1 log1]
          omega
        · have := refresh_retry_getdata_count env db1 log1
          omega
      · rw [if_neg hs]
        dsimp only
        exact ⟨by omega, by omega⟩

/-- C3 witness: on the concrete recovery scenario the failed first attempt
routes the cycle to the retry path, which performs its single forced
re-login. -/
theorem refresh_single_forced_retry_witness :
    refresh_telemetry envC3 dbC3 [] = refresh_retry envC3 dbC3 [NetCall.cloudGetData] ∧
    (refresh_retry envC3 dbC3 [NetCall.cloudGetData]).2.2.countP NetCall.isForcedLogin =
      ([NetCall.cloudGetData] : List NetCall).countP NetCall.isForcedLogin + 1 :=
  (refresh_single_forced_retry envC3 dbC3).2.1
    (Err.systemError "bad return from aquatemp temperature fetch") dbC3
    [NetCall.cloudGetData] rfl rfl

/-- C7: across any sequence of login, device-resolution and telemetry
operations, the store never holds a partial credential: whatever sits under
the credential key is a complete `(token, userId)` record, written
atomically by the single `db[key] = json.dumps((token, id))` assignment. -/
theorem store_cred_record_atomic (env : Env) (ops : List Op) (db : Db) (log : List NetCall)
    (h : credAtomic db) : credAtomic (runOps env ops (db, log)).1 := by
  induction ops generalizing db log with
  | nil => exact h
  | cons op rest ih =>
    have hstep := credAtomic_runOp env db log op h
    have hfold : runOps env (op :: rest) (db, log) =
        runOps env rest (runOp env (db, log) op) := by
      simp [runOps]
    rw [hfold]
    have := ih (runOp env (db, log) op).1 (runOp env (db, log) op).2 hstep
    simpa using this

/-- C7 witness: starting from the empty store, a forced login followed by a
telemetry fetch leaves the credential record atomic. -/
theorem store_cred_record_atomic_witness :
    credAtomic (runOps baseEnv [Op.login true, Op.getData "T1" "U1"] (([] : Db), [])).1 :=
  store_cred_record_atomic baseEnv [Op.login true, Op.getData "T1" "U1"] ([] : Db) []
    (by intro v hv; simp [dbLookup] at hv)

end PoolHeat
